import Mathlib

/-!
Verification of the barcode-lookup aggregation subsystem of cnc-webapp.

The development shallowly embeds the TypeScript sources:
  * `src/validators/barcode.validator.ts`  (vGetItemByCode, vGetBatchItems)
  * `src/app/api/services/openfoodfacts.service.ts` (OpenFoodFactsService)
  * `src/services/upcitemdb.service.ts` (UPCItemDBService)
  * `src/app/api/controllers/barcode.controller.ts` (BarcodeController)

Outbound HTTP calls are modelled as oracle parameters: each service function
takes the upstream response (or failure) it would have observed as an explicit
argument, and each controller function takes the settled outcome of each
service call as an explicit argument. JavaScript objects are modelled as
association lists with first-binding-wins lookup; a later JS assignment or a
later spread entry is therefore modelled by prepending.
-/

set_option autoImplicit false
set_option linter.unusedVariables false

namespace CncWebapp

/-- Value stored under a key of a JSON object, as used by the barcode flow
(strings, numbers, booleans, or arrays of strings such as `images`). -/
inductive Val where
  | str (s : String)
  | num (n : Int)
  | bool (b : Bool)
  | strArr (xs : List String)
  deriving DecidableEq, Repr

/-- A JavaScript object: an association list from keys to values.
Lookup takes the first binding, so shadowing a key is done by prepending. -/
abbrev Obj : Type := List (String × Val)

/-- Property read `o[k]`: first binding wins. -/
def objGet : Obj → String → Option Val
  | [], _ => none
  | (k', v) :: rest, k => if k' = k then some v else objGet rest k

/-- Key list of an object (possibly with duplicates from shadowed bindings). -/
def objKeys (o : Obj) : List String :=
  (o : List (String × Val)).map Prod.fst

/-- Whitespace characters removed by JavaScript `String.prototype.trim`:
tab, line feed, vertical tab, form feed, carriage return, space, NBSP,
BOM, the Unicode space separators and the line/paragraph separators. -/
def isJsWs (c : Char) : Bool :=
  c = ' ' || c = '\t' || c = '\n' || c = '\r' ||
  c = '\u000B' || c = '\u000C' || c = '\u00A0' || c = '\uFEFF' ||
  c = '\u1680' || ('\u2000' ≤ c && c ≤ '\u200A') ||
  c = '\u202F' || c = '\u205F' || c = '\u3000' ||
  c = '\u2028' || c = '\u2029' 

/-- JavaScript `trim` on a character list: drop whitespace at both ends. -/
def jsTrimL (l : List Char) : List Char :=
  ((l.dropWhile isJsWs).reverse.dropWhile isJsWs).reverse

/-- JavaScript `String.prototype.trim`. -/
def jsTrim (s : String) : String :=
  ⟨jsTrimL s.data⟩

/-- The character class `\d` of a JavaScript regular expression: `[0-9]`. -/
def isAsciiDigit (c : Char) : Bool :=
  '0' ≤ c && c ≤ '9'

/-- The test `/^\d{8,14}$/.test s`: the whole string is 8 to 14 ASCII
decimal digits. -/
def matchesBarcodeRegexL (l : List Char) : Bool :=
  l.all isAsciiDigit && decide (8 ≤ l.length) && decide (l.length ≤ 14)

/-- `/^\d{8,14}$/.test` on a string. -/
def matchesBarcodeRegex (s : String) : Bool :=
  matchesBarcodeRegexL s.data

/-- The typed rejections produced by the barcode validators and controller:
`BadRequestError` (HTTP 400) and `NotFoundError` (HTTP 404) with their
messages, from `src/app/api/errors/index.ts`. -/
inductive ApiErr where
  | badRequest (msg : String)
  | notFound (msg : String)
  deriving DecidableEq, Repr

/-- Embedding of the validator `vGetItemByCode` from
`src/validators/barcode.validator.ts`: reject an empty or whitespace-only
`code` route parameter, then reject a trimmed code failing `/^\d{8,14}$/`;
otherwise call `next()` (modelled as `.ok ()`). -/
def vGetItemByCode (code : String) : Except ApiErr Unit :=
  if code = "" ∨ jsTrimL code.data = [] then
    .error (.badRequest "Valid barcode code is required")
  else if !(matchesBarcodeRegex (jsTrim code)) then
    .error (.badRequest "Barcode must be a numeric string between 8 and 14 digits")
  else
    .ok ()

/-- JSON values that can appear in the request body at `req.body.codes`
(`undef` stands for an absent property). -/
inductive Js where
  | undef
  | null
  | bool (b : Bool)
  | num (n : Int)
  | str (s : String)
  | arr (xs : List Js)

/-- JavaScript truthiness of a `Js` value (`!codes` is its negation). -/
def jsTruthy : Js → Bool
  | .undef => false
  | .null => false
  | .bool b => b
  | .num n => decide (n ≠ 0)
  | .str s => decide (s ≠ "")
  | .arr _ => true

/-- The per-element loop of `vGetBatchItems`: reject a non-string or
empty/whitespace-only element with a generic message, reject an element
failing `/^\d{8,14}$/` with a message quoting the element. -/
def validateCodesLoop : List Js → Except ApiErr Unit
  | [] => .ok ()
  | .str s :: rest =>
    if jsTrimL s.data = [] then
      .error (.badRequest "All codes must be non-empty strings")
    else if !(matchesBarcodeRegex (jsTrim s)) then
      .error (.badRequest ("Invalid barcode format: " ++ s ++
        ". Barcode must be a numeric string between 8 and 14 digits"))
    else
      validateCodesLoop rest
  | _ :: _ => .error (.badRequest "All codes must be non-empty strings")

/-- Embedding of the validator `vGetBatchItems` from
`src/validators/barcode.validator.ts`: reject a falsy `codes`, a non-array
`codes`, an empty array, an array of more than 100 elements, and then each
element through `validateCodesLoop`. -/
def vGetBatchItems (codes : Js) : Except ApiErr Unit :=
  if !(jsTruthy codes) then
    .error (.badRequest "codes array is required")
  else
    match codes with
    | .arr xs =>
      if xs.length = 0 then
        .error (.badRequest "codes array must not be empty")
      else if 100 < xs.length then
        .error (.badRequest "codes array must not contain more than 100 items")
      else
        validateCodesLoop xs
    | _ => .error (.badRequest "codes must be an array")

/-- An element of the `codes` array satisfying the single-barcode rule:
a string whose trimmed form matches `/^\d{8,14}$/`. -/
def elemValid : Js → Bool
  | .str s => matchesBarcodeRegex (jsTrim s)
  | _ => false

namespace OpenFoodFactsService

/-- Settled observation of the outbound axios GET issued by
`OpenFoodFactsService.getProductByBarcode` to `/product/{barcode}`:
either a 2xx JSON body `{ status, product? }`, or an axios failure carrying
an optional HTTP status (`none` models a timeout or network failure). -/
inductive FoodUpstream where
  | respOk (status : Nat) (product : Option Obj)
  | respErr (httpStatus : Option Nat) (message : String)

/-- Embedding of `OpenFoodFactsService.getProductByBarcode` from
`src/app/api/services/openfoodfacts.service.ts`. The `fields` option is only
forwarded upstream as the `fields` query parameter; the body never filters the
response with it. On a 2xx body with `status === 0` or a missing `product`
the service throws a not-found `Error`; otherwise it returns
`{ barcode, ...response.data.product }` (the spread entries shadow `barcode`,
hence `product` is prepended to the `barcode` binding in the lookup order).
On an axios error: 404 maps to the not-found message, anything else to an
`OpenFoodFacts API error` message. -/
def getProductByBarcode (barcode : String) (fields : Option (List String))
    (up : FoodUpstream) : Except String Obj :=
  match up with
  | .respOk status product =>
    match product with
    | some p =>
      if status = 0 then
        .error ("Product not found in OpenFoodFacts: " ++ barcode)
      else
        .ok (p ++ [("barcode", Val.str barcode)])
    | none => .error ("Product not found in OpenFoodFacts: " ++ barcode)
  | .respErr (some 404) _ =>
    .error ("Product not found in OpenFoodFacts: " ++ barcode)
  | .respErr _ msg => .error ("OpenFoodFacts API error: " ++ msg)

end OpenFoodFactsService

namespace UPCItemDBService

/-- Settled observation of the outbound axios GET issued by
`UPCItemDBService.lookup` to `/prod/trial/lookup?upc={barcode}`:
either a 2xx JSON body `{ items? }`, or an axios failure carrying an optional
HTTP status and an optional `response.data.message`. -/
inductive RetailUpstream where
  | respOk (items : Option (List Obj))
  | respErr (httpStatus : Option Nat) (dataMessage : Option String)
      (message : String)

/-- Embedding of `UPCItemDBService.lookup` from
`src/services/upcitemdb.service.ts`. A missing or empty `items` array throws
a not-found `Error`. With a non-empty `fields` option the first item is
filtered: starting from `{ barcode }`, each requested field present in the
item is assigned in order (assignment is modelled by prepending, so a later
assignment shadows an earlier binding). Without `fields` the result is
`{ barcode, ...product }`. On an axios error: 429 maps to the rate-limit
message, 404 to not-found, a `response.data.message` to an API error quoting
it, anything else to a generic API error. -/
def lookup (barcode : String) (fields : Option (List String))
    (up : RetailUpstream) : Except String Obj :=
  match up with
  | .respOk items =>
    match items with
    | none => .error ("Product not found in UPCItemDB: " ++ barcode)
    | some [] => .error ("Product not found in UPCItemDB: " ++ barcode)
    | some (product :: _) =>
      match fields with
      | some fs =>
        if 0 < fs.length then
          .ok (fs.foldl
            (fun acc f =>
              match objGet product f with
              | some v => (f, v) :: acc
              | none => acc)
            [("barcode", Val.str barcode)])
        else
          .ok (product ++ [("barcode", Val.str barcode)])
      | none => .ok (product ++ [("barcode", Val.str barcode)])
  | .respErr (some 429) _ _ =>
    .error "UPCItemDB API rate limit exceeded. Please try again later."
  | .respErr (some 404) _ _ =>
    .error ("Product not found in UPCItemDB: " ++ barcode)
  | .respErr _ (some dmsg) _ => .error ("UPCItemDB API error: " ++ dmsg)
  | .respErr _ none msg => .error ("UPCItemDB API error: " ++ msg)

end UPCItemDBService

namespace BarcodeController

/-- The `foodData` shape of `CombinedItemResponse` in
`src/app/api/controllers/barcode.controller.ts`; every field is optional. -/
structure FoodData where
  keywords : Option Val
  product_name : Option Val
  product_quantity : Option Val
  product_quantity_unit : Option Val
  quantity : Option Val
  serving_quantity : Option Val
  serving_quantity_unit : Option Val
  deriving DecidableEq, Repr

/-- The `retailData` shape of `CombinedItemResponse`. -/
structure RetailData where
  description : Option Val
  brand : Option Val
  images : Option Val
  deriving DecidableEq, Repr

/-- The `sources` record of `CombinedItemResponse`. -/
structure Sources where
  openFoodFacts : Bool
  upcItemDB : Bool
  deriving DecidableEq, Repr

/-- The `CombinedItemResponse` interface of the controller. -/
structure CombinedItemResponse where
  barcode : String
  foodData : Option FoodData
  retailData : Option RetailData
  sources : Sources
  deriving DecidableEq, Repr

/-- The batch response body `{ items, total, requested }` sent by
`BarcodeController.getBatchItems`. -/
structure BatchResponse where
  items : List CombinedItemResponse
  total : Nat
  requested : Nat
  deriving DecidableEq, Repr

/-- Whether an `Except` outcome is a success (whether the corresponding
`await` returned instead of throwing into the `catch` block). -/
def exceptOk {ε α : Type} : Except ε α → Bool
  | .ok _ => true
  | .error _ => false

/-- The `response.foodData` assignment of the controller: each field reads a
property of the object returned by `OpenFoodFactsService.getProductByBarcode`
(note `keywords` reads the `_keywords` property). -/
def mkFoodData (m : Obj) : FoodData :=
  { keywords := objGet m "_keywords"
    product_name := objGet m "product_name"
    product_quantity := objGet m "product_quantity"
    product_quantity_unit := objGet m "product_quantity_unit"
    quantity := objGet m "quantity"
    serving_quantity := objGet m "serving_quantity"
    serving_quantity_unit := objGet m "serving_quantity_unit" }

/-- The `response.retailData` assignment of the controller: each field reads
a property of the object returned by `UPCItemDBService.lookup`. -/
def mkRetailData (m : Obj) : RetailData :=
  { description := objGet m "description"
    brand := objGet m "brand"
    images := objGet m "images" }

/-- The shared body of the two sequential try/catch blocks of
`getItemByCode` and of the per-code mapper of `getBatchItems`: starting from
`{ barcode: code, sources: { openFoodFacts: false, upcItemDB: false } }`,
a successful food outcome assigns `foodData` and sets the flag true, and a
successful retail outcome assigns `retailData` and sets the flag true;
a caught error leaves the corresponding parts untouched. -/
def combineOutcomes (code : String) (food retail : Except String Obj) :
    CombinedItemResponse :=
  { barcode := code
    foodData :=
      match food with
      | .ok m => some (mkFoodData m)
      | .error _ => none
    retailData :=
      match retail with
      | .ok m => some (mkRetailData m)
      | .error _ => none
    sources := { openFoodFacts := exceptOk food, upcItemDB := exceptOk retail } }

/-- The field list the controller passes to
`OpenFoodFactsService.getProductByBarcode` (note `product_name_fr`). -/
def offFields : List String :=
  ["_keywords", "product_name_fr", "product_quantity",
   "product_quantity_unit", "quantity", "serving_quantity",
   "serving_quantity_unit"]

/-- The field list the controller passes to `UPCItemDBService.lookup`. -/
def retailFields : List String :=
  ["description", "brand", "images"]

/-- Embedding of `BarcodeController.getItemByCode`, parameterised by the
settled outcome of each of the two awaited service calls. An empty route
parameter is rejected (`!code`); then, when both source flags stayed false,
the controller raises `NotFoundError`; otherwise it sends the combined
response with status 200. -/
def getItemByCode (code : String) (food retail : Except String Obj) :
    Except ApiErr CombinedItemResponse :=
  if code = "" then
    .error (.badRequest "Barcode code is required")
  else
    let response := combineOutcomes code food retail
    if !response.sources.openFoodFacts && !response.sources.upcItemDB then
      .error (.notFound ("Item with barcode " ++ code ++
        " not found in any source"))
    else
      .ok response

/-- `getItemByCode` composed with the two provider clients at the curated
field lists the controller actually passes, parameterised by the upstream
observations of the two HTTP calls. -/
def getItemByCodeFromUpstreams (code : String)
    (fup : OpenFoodFactsService.FoodUpstream)
    (rup : UPCItemDBService.RetailUpstream) :
    Except ApiErr CombinedItemResponse :=
  getItemByCode code
    (OpenFoodFactsService.getProductByBarcode code (some offFields) fup)
    (UPCItemDBService.lookup code (some retailFields) rup)

/-- The per-code async mapper of `getBatchItems`: build the combined
response for one code and keep it only when at least one source flag is
true, returning `null` (here `none`) otherwise. -/
def batchItem (code : String) (food retail : Except String Obj) :
    Option CombinedItemResponse :=
  let response := combineOutcomes code food retail
  if response.sources.openFoodFacts || response.sources.upcItemDB then
    some response
  else
    none

/-- Embedding of `BarcodeController.getBatchItems` on a `codes` array of
strings (the batch validator has already ensured the array shape), with the
settled outcome of each service call given per position and code. Mirrors
`Promise.all(codes.map(...))`, which resolves positionally, followed by the
`filter` dropping the `null` entries. -/
def getBatchItems (codes : List String)
    (food retail : Nat → String → Except String Obj) :
    Except ApiErr BatchResponse :=
  if codes.length = 0 then
    .error (.badRequest "codes array is required and must not be empty")
  else
    let results := codes.enum.map
      (fun ic => batchItem ic.2 (food ic.1 ic.2) (retail ic.1 ic.2))
    let validResults := results.filterMap id
    .ok { items := validResults
          total := validResults.length
          requested := codes.length }

/-- Events observable on the body of `getItemByCode`: the start (`issue`)
and the settling (`settle`) of each of the two service calls. -/
inductive CallEv where
  | issueFood
  | settleFood
  | issueRetail
  | settleRetail
  deriving DecidableEq, Repr

/-- Trace semantics of the body of `getItemByCode`: after the guard, the
program text is `await OpenFoodFactsService.getProductByBarcode(...)` inside
`try`, followed by `await UPCItemDBService.lookup(...)` inside `try` — each
`await expr` contributes the issue of its call and then its settling, in
program order, whatever the outcomes; the `catch` blocks only log. -/
def getItemByCodeTrace (code : String) (food retail : Except String Obj) :
    List CallEv × Except ApiErr CombinedItemResponse :=
  if code = "" then
    ([], .error (.badRequest "Barcode code is required"))
  else
    ([.issueFood, .settleFood, .issueRetail, .settleRetail],
     getItemByCode code food retail)

/-- Index of the first occurrence of an event in a trace. -/
def idxOf (e : CallEv) : List CallEv → Option Nat
  | [] => none
  | x :: rest =>
    if x = e then some 0 else (idxOf e rest).map (· + 1)

/-- `precedes t a b` holds when both events occur in the trace `t` and the
first occurrence of `a` is strictly before the first occurrence of `b`. -/
def precedes (t : List CallEv) (a b : CallEv) : Bool :=
  match idxOf a t, idxOf b t with
  | some i, some j => decide (i < j)
  | _, _ => false

end BarcodeController

/-- Whether the character list `needle` is an initial segment of `hay`. -/
def leadsList : List Char → List Char → Bool
  | [], _ => true
  | _ :: _, [] => false
  | a :: as, b :: bs => a = b && leadsList as bs

/-- Whether the character list `needle` occurs contiguously inside `hay`. -/
def subList (needle hay : List Char) : Bool :=
  match hay with
  | [] => needle.isEmpty
  | _ :: t => leadsList needle hay || subList needle t

/-- Whether the string `needle` occurs as a substring of `hay` (used to state
that a rejection message reports an offending barcode). -/
def strContainsSub (hay needle : String) : Bool :=
  subList needle.data hay.data

/-- Concrete per-position food-provider outcome used by batch witnesses:
every call succeeds with a one-field product. -/
def wFood : Nat → String → Except String Obj := fun _ _ =>
  .ok [("product_name", Val.str "X")]

/-- Concrete per-position retail-provider outcome used by batch witnesses:
every call fails. -/
def wRetail : Nat → String → Except String Obj := fun _ _ =>
  .error "retail down"

/-- Concrete always-failing food-provider outcome. -/
def wFoodFail : Nat → String → Except String Obj := fun _ _ =>
  .error "food down"

/-- The batch response `getBatchItems` computes for the one-element batch
`["11111111"]` under `wFood` and `wRetail`. -/
def wRes : BarcodeController.BatchResponse :=
  { items := [{ barcode := "11111111",
                foodData := some
                  (BarcodeController.mkFoodData [("product_name", Val.str "X")]),
                retailData := none,
                sources := { openFoodFacts := true, upcItemDB := false } }],
    total := 1,
    requested := 1 }

lemma matchesBarcodeRegexL_nil : matchesBarcodeRegexL [] = false := by
  decide

lemma jsTrimL_eq_nil_of_matches_false {l : List Char}
    (h : jsTrimL l = []) : matchesBarcodeRegexL (jsTrimL l) = false := by
  rw [h]; exact matchesBarcodeRegexL_nil

lemma data_empty : ("" : String).data = [] := rfl

lemma matchesBarcodeRegex_jsTrim (s : String) :
    matchesBarcodeRegex (jsTrim s) = matchesBarcodeRegexL (jsTrimL s.data) :=
  rfl

open BarcodeController OpenFoodFactsService UPCItemDBService

/-- C3: single-barcode validation `vGetItemByCode` accepts an input string
`b` if and only if `trim(b)` matches `/^\d{8,14}$/`; every other input is
rejected with one of the two `BadRequestError` messages. -/
theorem vGetItemByCode_accepts_iff (b : String) :
    (vGetItemByCode b = .ok () ↔ matchesBarcodeRegex (jsTrim b) = true) ∧
    (matchesBarcodeRegex (jsTrim b) = false →
      vGetItemByCode b =
        .error (.badRequest "Valid barcode code is required") ∨
      vGetItemByCode b =
        .error (.badRequest
          "Barcode must be a numeric string between 8 and 14 digits")) := by
  constructor
  · unfold vGetItemByCode
    split
    · next h =>
      have htrim : jsTrimL b.data = [] := by
        rcases h with h | h
        · rw [h, data_empty]; rfl
        · exact h
      rw [matchesBarcodeRegex_jsTrim, htrim, matchesBarcodeRegexL_nil]
      simp
    · split
      · next hx =>
        have hfalse : matchesBarcodeRegex (jsTrim b) = false := by
          simpa using hx
        rw [hfalse]
        simp
      · next hx =>
        have htrue : matchesBarcodeRegex (jsTrim b) = true := by
          simpa using hx
        rw [htrue]
        simp
  · intro hreg
    unfold vGetItemByCode
    split
    · left
      rfl
    · rw [hreg]
      right
      rfl

/-- Witness for C3: the validator accepts the concrete barcode
`"3017620422003"`. -/
theorem vGetItemByCode_accepts_iff_witness :
    vGetItemByCode "3017620422003" = .ok () :=
  (vGetItemByCode_accepts_iff "3017620422003").1.mpr (by decide)

/-- C1: `getItemByCode` returns a combined result only when at least one
source flag is true, and when both provider calls fail it raises
`NotFoundError` instead. -/
theorem getItemByCode_sources_invariant (code : String)
    (food retail : Except String Obj) :
    (∀ r, getItemByCode code food retail = .ok r →
      r.sources.openFoodFacts = true ∨ r.sources.upcItemDB = true) ∧
    (code ≠ "" → ∀ ef er : String,
      getItemByCode code (.error ef) (.error er) =
        .error (.notFound ("Item with barcode " ++ code ++
          " not found in any source"))) := by
  constructor
  · intro r hr
    unfold getItemByCode at hr
    split at hr
    · simp at hr
    · simp only [] at hr
      split at hr
      · simp at hr
      · next hflag =>
        simp only [Except.ok.injEq] at hr
        subst hr
        simp only [combineOutcomes] at hflag ⊢
        revert hflag
        cases exceptOk food <;> cases exceptOk retail <;> simp
  · intro hcode ef er
    unfold getItemByCode
    rw [if_neg hcode]
    rfl

/-- Witness for C1: at the concrete barcode `"12345678"` with both provider
calls failing, the lookup raises the `NotFoundError`. -/
theorem getItemByCode_sources_invariant_witness :
    getItemByCode "12345678" (.error "food down") (.error "retail down") =
      .error (.notFound ("Item with barcode " ++ "12345678" ++
        " not found in any source")) :=
  (getItemByCode_sources_invariant "12345678"
      (.error "food down") (.error "retail down")).2
    (by decide) "food down" "retail down"

/-- C2: if exactly one provider call succeeds, `getItemByCode` still returns
a result with the successful side populated, the other side absent, and the
failed side's source flag false (in both directions). -/
theorem getItemByCode_partial_failure (code : String) (hcode : code ≠ "")
    (m : Obj) (ef er : String) :
    getItemByCode code (.ok m) (.error er) =
      .ok { barcode := code, foodData := some (mkFoodData m),
            retailData := none,
            sources := { openFoodFacts := true, upcItemDB := false } } ∧
    getItemByCode code (.error ef) (.ok m) =
      .ok { barcode := code, foodData := none,
            retailData := some (mkRetailData m),
            sources := { openFoodFacts := false, upcItemDB := true } } := by
  constructor <;> (unfold getItemByCode; rw [if_neg hcode]; rfl)

/-- Witness for C2: concrete partial success, food side only. -/
theorem getItemByCode_partial_failure_witness :
    getItemByCode "12345678"
        (.ok [("product_name", Val.str "X")]) (.error "down") =
      .ok { barcode := "12345678",
            foodData := some (mkFoodData [("product_name", Val.str "X")]),
            retailData := none,
            sources := { openFoodFacts := true, upcItemDB := false } } :=
  (getItemByCode_partial_failure "12345678" (by decide)
    [("product_name", Val.str "X")] "e" "down").1

lemma elemValid_str_trim_nil {s : String} (h : jsTrimL s.data = []) :
    elemValid (.str s) = false := by
  simp [elemValid, matchesBarcodeRegex_jsTrim, h, matchesBarcodeRegexL_nil]

lemma validateCodesLoop_ok_iff (xs : List Js) :
    validateCodesLoop xs = .ok () ↔ ∀ j ∈ xs, elemValid j = true := by
  induction xs with
  | nil => simp [validateCodesLoop]
  | cons c rest ih =>
    cases c with
    | str s =>
      by_cases h1 : jsTrimL s.data = []
      · simp [validateCodesLoop, h1, elemValid_str_trim_nil h1]
      · by_cases h2 : matchesBarcodeRegex (jsTrim s) = true
        · simp [validateCodesLoop, h1, h2, ih, elemValid]
        · have h2' : matchesBarcodeRegex (jsTrim s) = false := by
            cases hb : matchesBarcodeRegex (jsTrim s)
            · rfl
            · exact absurd hb h2
          simp [validateCodesLoop, h1, h2', elemValid]
    | undef => simp [validateCodesLoop, elemValid]
    | null => simp [validateCodesLoop, elemValid]
    | bool b => simp [validateCodesLoop, elemValid]
    | num n => simp [validateCodesLoop, elemValid]
    | arr ys => simp [validateCodesLoop, elemValid]

lemma validateCodesLoop_append_valid (pre rest : List Js)
    (hpre : ∀ j ∈ pre, elemValid j = true) :
    validateCodesLoop (pre ++ rest) = validateCodesLoop rest := by
  induction pre with
  | nil => rfl
  | cons c cs ih =>
    have hc : elemValid c = true := hpre c (by simp)
    have hcs : ∀ j ∈ cs, elemValid j = true := fun j hj => hpre j (by simp [hj])
    cases c with
    | str s =>
      have hm : matchesBarcodeRegex (jsTrim s) = true := by
        simpa [elemValid] using hc
      have h1 : ¬ jsTrimL s.data = [] := by
        intro h
        rw [matchesBarcodeRegex_jsTrim, h, matchesBarcodeRegexL_nil] at hm
        exact Bool.noConfusion hm
      simp [List.cons_append, validateCodesLoop, h1, hm, ih hcs]
    | undef => simp [elemValid] at hc
    | null => simp [elemValid] at hc
    | bool b => simp [elemValid] at hc
    | num n => simp [elemValid] at hc
    | arr ys => simp [elemValid] at hc

lemma vGetBatchItems_arr (xs : List Js) (h0 : ¬ xs.length = 0)
    (h100 : ¬ 100 < xs.length) :
    vGetBatchItems (.arr xs) = validateCodesLoop xs := by
  simp [vGetBatchItems, jsTruthy, h0, h100]

lemma validateCodesLoop_error_badRequest :
    ∀ (xs : List Js) (e : ApiErr), validateCodesLoop xs = .error e →
      ∃ msg, e = .badRequest msg := by
  intro xs
  induction xs with
  | nil =>
    intro e h
    simp [validateCodesLoop] at h
  | cons c rest ih =>
    intro e h
    cases c with
    | str s =>
      by_cases h1 : jsTrimL s.data = []
      · simp only [validateCodesLoop, if_pos h1, Except.error.injEq] at h
        exact ⟨_, h.symm⟩
      · by_cases h2 : matchesBarcodeRegex (jsTrim s) = true
        · simp only [validateCodesLoop, if_neg h1, h2, Bool.not_true,
            Bool.false_eq_true, if_false] at h
          exact ih e h
        · have h2' : matchesBarcodeRegex (jsTrim s) = false := by
            cases hb : matchesBarcodeRegex (jsTrim s)
            · rfl
            · exact absurd hb h2
          simp only [validateCodesLoop, if_neg h1, h2', Bool.not_false,
            if_true, Except.error.injEq] at h
          exact ⟨_, h.symm⟩
    | undef =>
      simp only [validateCodesLoop, Except.error.injEq] at h
      exact ⟨_, h.symm⟩
    | null =>
      simp only [validateCodesLoop, Except.error.injEq] at h
      exact ⟨_, h.symm⟩
    | bool b =>
      simp only [validateCodesLoop, Except.error.injEq] at h
      exact ⟨_, h.symm⟩
    | num n =>
      simp only [validateCodesLoop, Except.error.injEq] at h
      exact ⟨_, h.symm⟩
    | arr ys =>
      simp only [validateCodesLoop, Except.error.injEq] at h
      exact ⟨_, h.symm⟩

lemma leadsList_append (l t : List Char) : leadsList l (l ++ t) = true := by
  induction l with
  | nil => rfl
  | cons a as ih => simp [leadsList, ih]

lemma subList_refl_append (needle post : List Char) :
    subList needle (needle ++ post) = true := by
  cases needle with
  | nil =>
    cases post with
    | nil => rfl
    | cons b bs => simp [subList, leadsList]
  | cons a as =>
    simp only [subList, List.cons_append, Bool.or_eq_true]
    left
    simpa [leadsList] using leadsList_append as post

lemma subList_append_self (pre needle post : List Char) :
    subList needle (pre ++ (needle ++ post)) = true := by
  induction pre with
  | nil => simpa using subList_refl_append needle post
  | cons c cs ih => simp [subList, ih]

lemma strContainsSub_append (a s b : String) :
    strContainsSub (a ++ s ++ b) s = true := by
  unfold strContainsSub
  have hdata : (a ++ s ++ b).data = a.data ++ (s.data ++ b.data) := by
    simp [String.data_append, List.append_assoc]
  rw [hdata]
  exact subList_append_self a.data s.data b.data

/-- C5 (amended): `vGetBatchItems` rejects a falsy or non-array `codes`
payload, an empty array, and an array of more than 100 elements; it accepts
an array of 100 valid codes; with an in-range array it accepts exactly when
every element satisfies the single-barcode rule (so a batch with a failing
element — a non-string included — is rejected); when the first offending
element is a non-empty string failing the digit rule it is quoted in the
message, while an empty or whitespace-only string yields the generic
message that does not name the code; and every rejection the validator
produces is a `BadRequestError`. -/
theorem vGetBatchItems_spec :
    (∀ j : Js, jsTruthy j = false →
      vGetBatchItems j = .error (.badRequest "codes array is required")) ∧
    (∀ j : Js, jsTruthy j = true → (∀ xs, j ≠ .arr xs) →
      vGetBatchItems j = .error (.badRequest "codes must be an array")) ∧
    (vGetBatchItems (.arr []) =
      .error (.badRequest "codes array must not be empty")) ∧
    (∀ xs : List Js, 100 < xs.length →
      vGetBatchItems (.arr xs) =
        .error
          (.badRequest "codes array must not contain more than 100 items")) ∧
    (vGetBatchItems (.arr (List.replicate 100 (.str "12345678"))) =
      .ok ()) ∧
    (∀ xs : List Js, 0 < xs.length → xs.length ≤ 100 →
      (vGetBatchItems (.arr xs) = .ok () ↔
        ∀ j ∈ xs, elemValid j = true)) ∧
    (∀ (pre rest : List Js) (s : String),
      (∀ j ∈ pre, elemValid j = true) →
      ¬ jsTrimL s.data = [] →
      matchesBarcodeRegex (jsTrim s) = false →
      (pre ++ Js.str s :: rest).length ≤ 100 →
      vGetBatchItems (.arr (pre ++ Js.str s :: rest)) =
        .error (.badRequest ("Invalid barcode format: " ++ s ++
          ". Barcode must be a numeric string between 8 and 14 digits")) ∧
      strContainsSub ("Invalid barcode format: " ++ s ++
        ". Barcode must be a numeric string between 8 and 14 digits") s =
        true) ∧
    (∀ (pre rest : List Js) (s : String),
      (∀ j ∈ pre, elemValid j = true) →
      jsTrimL s.data = [] →
      (pre ++ Js.str s :: rest).length ≤ 100 →
      vGetBatchItems (.arr (pre ++ Js.str s :: rest)) =
        .error (.badRequest "All codes must be non-empty strings")) ∧
    (∀ (j : Js) (e : ApiErr), vGetBatchItems j = .error e →
      ∃ msg, e = .badRequest msg) := by
  refine ⟨?_, ?_, ?_, ?_, ?_, ?_, ?_, ?_, ?_⟩
  · intro j h
    simp [vGetBatchItems, h]
  · intro j ht hne
    cases j with
    | undef => exact Bool.noConfusion ht
    | null => exact Bool.noConfusion ht
    | bool b =>
      cases b with
      | false => exact Bool.noConfusion ht
      | true => rfl
    | num n =>
      simp only [vGetBatchItems, jsTruthy]
      simp only [jsTruthy] at ht
      simp [ht]
    | str s =>
      simp only [vGetBatchItems, jsTruthy]
      simp only [jsTruthy] at ht
      simp [ht]
    | arr xs => exact absurd rfl (hne xs)
  · rfl
  · intro xs h
    have h0 : ¬ xs.length = 0 := by omega
    simp [vGetBatchItems, jsTruthy, h0, h]
  · rw [vGetBatchItems_arr _ (by simp) (by simp)]
    refine (validateCodesLoop_ok_iff _).mpr ?_
    intro j hj
    rw [List.eq_of_mem_replicate hj]
    decide
  · intro xs h0 h100
    rw [vGetBatchItems_arr xs (by omega) (by omega)]
    exact validateCodesLoop_ok_iff xs
  · intro pre rest s hpre hne hreg hlen
    have hl : (pre ++ Js.str s :: rest).length =
        pre.length + rest.length + 1 := by
      rw [List.length_append, List.length_cons]
      omega
    refine ⟨?_, strContainsSub_append "Invalid barcode format: " s
      ". Barcode must be a numeric string between 8 and 14 digits"⟩
    rw [vGetBatchItems_arr _ (by omega) (by omega),
      validateCodesLoop_append_valid pre _ hpre]
    simp [validateCodesLoop, hne, hreg]
  · intro pre rest s hpre htrim hlen
    have hl : (pre ++ Js.str s :: rest).length =
        pre.length + rest.length + 1 := by
      rw [List.length_append, List.length_cons]
      omega
    rw [vGetBatchItems_arr _ (by omega) (by omega),
      validateCodesLoop_append_valid pre _ hpre]
    simp [validateCodesLoop, htrim]
  · intro j e h
    cases j with
    | arr xs =>
      by_cases h0 : xs.length = 0
      · have hval : vGetBatchItems (.arr xs) =
            .error (.badRequest "codes array must not be empty") := by
          simp [vGetBatchItems, jsTruthy, h0]
        rw [hval] at h
        simp only [Except.error.injEq] at h
        exact ⟨_, h.symm⟩
      · by_cases h100 : 100 < xs.length
        · have hval : vGetBatchItems (.arr xs) =
              .error (.badRequest
                "codes array must not contain more than 100 items") := by
            simp [vGetBatchItems, jsTruthy, h0, h100]
          rw [hval] at h
          simp only [Except.error.injEq] at h
          exact ⟨_, h.symm⟩
        · rw [vGetBatchItems_arr xs h0 h100] at h
          exact validateCodesLoop_error_badRequest xs e h
    | undef =>
      have hval : vGetBatchItems Js.undef =
          .error (.badRequest "codes array is required") := rfl
      rw [hval] at h
      simp only [Except.error.injEq] at h
      exact ⟨_, h.symm⟩
    | null =>
      have hval : vGetBatchItems Js.null =
          .error (.badRequest "codes array is required") := rfl
      rw [hval] at h
      simp only [Except.error.injEq] at h
      exact ⟨_, h.symm⟩
    | bool b =>
      cases b with
      | false =>
        have hval : vGetBatchItems (Js.bool false) =
            .error (.badRequest "codes array is required") := rfl
        rw [hval] at h
        simp only [Except.error.injEq] at h
        exact ⟨_, h.symm⟩
      | true =>
        have hval : vGetBatchItems (Js.bool true) =
            .error (.badRequest "codes must be an array") := rfl
        rw [hval] at h
        simp only [Except.error.injEq] at h
        exact ⟨_, h.symm⟩
    | num n =>
      by_cases hn : n = 0
      · have hval : vGetBatchItems (Js.num n) =
            .error (.badRequest "codes array is required") := by
          simp [vGetBatchItems, jsTruthy, hn]
        rw [hval] at h
        simp only [Except.error.injEq] at h
        exact ⟨_, h.symm⟩
      · have hval : vGetBatchItems (Js.num n) =
            .error (.badRequest "codes must be an array") := by
          simp [vGetBatchItems, jsTruthy, hn]
        rw [hval] at h
        simp only [Except.error.injEq] at h
        exact ⟨_, h.symm⟩
    | str s =>
      by_cases hs : s = ""
      · have hval : vGetBatchItems (Js.str s) =
            .error (.badRequest "codes array is required") := by
          simp [vGetBatchItems, jsTruthy, hs]
        rw [hval] at h
        simp only [Except.error.injEq] at h
        exact ⟨_, h.symm⟩
      · have hval : vGetBatchItems (Js.str s) =
            .error (.badRequest "codes must be an array") := by
          simp [vGetBatchItems, jsTruthy, hs]
        rw [hval] at h
        simp only [Except.error.injEq] at h
        exact ⟨_, h.symm⟩

/-- Counterexample to C5 as stated: the batch `["   ", "12345678"]` contains
a whitespace-only first element failing the single-barcode rule; the batch
is rejected, but the rejection message is the generic one and does not
contain the offending code `"   "`. -/
theorem vGetBatchItems_counterexample :
    vGetBatchItems (.arr [Js.str "   ", Js.str "12345678"]) =
      .error (.badRequest "All codes must be non-empty strings") ∧
    strContainsSub "All codes must be non-empty strings" "   " = false := by
  exact ⟨rfl, by decide⟩

/-- Witness for C5 (amended): a one-element batch whose element is a
non-empty string failing the digit rule is rejected with a message that
quotes the offending code. -/
theorem vGetBatchItems_spec_witness :
    vGetBatchItems (.arr [Js.str "abc123"]) =
      .error (.badRequest ("Invalid barcode format: " ++ "abc123" ++
        ". Barcode must be a numeric string between 8 and 14 digits")) ∧
    strContainsSub ("Invalid barcode format: " ++ "abc123" ++
      ". Barcode must be a numeric string between 8 and 14 digits")
      "abc123" = true :=
  vGetBatchItems_spec.2.2.2.2.2.2.1 [] [] "abc123"
    (by simp) (by decide) (by decide) (by decide)

lemma getBatchItems_items_eq (codes : List String)
    (food retail : Nat → String → Except String Obj) (res : BatchResponse)
    (h : getBatchItems codes food retail = .ok res) :
    res.items = (codes.enum.map
      (fun ic => batchItem ic.2 (food ic.1 ic.2) (retail ic.1 ic.2))).filterMap
        id ∧
    res.total = res.items.length ∧ res.requested = codes.length := by
  unfold getBatchItems at h
  split at h
  · simp at h
  · simp only [] at h
    simp only [Except.ok.injEq] at h
    subst h
    exact ⟨rfl, rfl, rfl⟩

lemma batchItem_some_flags {code : String} {food retail : Except String Obj}
    {x : CombinedItemResponse}
    (h : batchItem code food retail = some x) :
    (x.sources.openFoodFacts || x.sources.upcItemDB) = true ∧
    x.barcode = code := by
  unfold batchItem at h
  simp only [] at h
  split at h
  · next hcond =>
    simp only [Option.some.injEq] at h
    subst h
    exact ⟨hcond, rfl⟩
  · exact Option.noConfusion h

lemma batchItem_none_of_fail {code : String} {food retail : Except String Obj}
    (hf : exceptOk food = false) (hr : exceptOk retail = false) :
    batchItem code food retail = none := by
  unfold batchItem
  simp [combineOutcomes, hf, hr]

lemma enumFrom_barcodes (food retail : Nat → String → Except String Obj) :
    ∀ (n : Nat) (codes : List String),
      (((List.enumFrom n codes).map
          (fun ic => batchItem ic.2 (food ic.1 ic.2) (retail ic.1 ic.2))).filterMap
            id).map (fun x => x.barcode) =
      ((List.enumFrom n codes).filter
          (fun ic => exceptOk (food ic.1 ic.2) ||
            exceptOk (retail ic.1 ic.2))).map Prod.snd := by
  intro n codes
  induction codes generalizing n with
  | nil => rfl
  | cons c cs ih =>
    have ih' := ih (n + 1)
    by_cases hs : (exceptOk (food n c) || exceptOk (retail n c)) = true
    · rw [Bool.or_eq_true] at hs
      simp [List.enumFrom, batchItem, combineOutcomes, hs] at ih' ⊢
      exact ih'
    · have hfr : exceptOk (food n c) = false ∧ exceptOk (retail n c) = false := by
        simpa using hs
      simp [List.enumFrom, batchItem, combineOutcomes, hfr.1, hfr.2] at ih' ⊢
      exact ih'

/-- C6: on a valid batch, the response of `getBatchItems` satisfies
`total = items.length`, `requested` = input length,
`items.length ≤ requested`, every item has at least one source flag true,
and the barcodes of `items` are exactly the input positions at which at
least one provider call succeeded. -/
theorem getBatchItems_invariants (codes : List String)
    (food retail : Nat → String → Except String Obj) (res : BatchResponse)
    (h : getBatchItems codes food retail = .ok res) :
    res.total = res.items.length ∧
    res.requested = codes.length ∧
    res.items.length ≤ codes.length ∧
    (∀ x ∈ res.items,
      x.sources.openFoodFacts = true ∨ x.sources.upcItemDB = true) ∧
    res.items.map (fun x => x.barcode) =
      (codes.enum.filter
        (fun ic => exceptOk (food ic.1 ic.2) ||
          exceptOk (retail ic.1 ic.2))).map Prod.snd := by
  obtain ⟨hitems, htot, hreq⟩ := getBatchItems_items_eq codes food retail res h
  refine ⟨htot, hreq, ?_, ?_, ?_⟩
  · rw [hitems]
    refine le_trans (List.length_filterMap_le _ _) ?_
    simp [List.enum_length]
  · intro x hx
    rw [hitems] at hx
    rw [List.mem_filterMap] at hx
    obtain ⟨a, ha, hid⟩ := hx
    rw [List.mem_map] at ha
    obtain ⟨ic, hic, rfl⟩ := ha
    simp only [id] at hid
    have hflags := (batchItem_some_flags hid).1
    rw [Bool.or_eq_true] at hflags
    exact hflags
  · rw [hitems]
    exact enumFrom_barcodes food retail 0 codes

/-- Witness for C6: the invariants at the concrete one-element batch
`["11111111"]` with the food call succeeding and the retail call failing. -/
theorem getBatchItems_invariants_witness :
    wRes.total = wRes.items.length ∧ wRes.requested = 1 :=
  ⟨(getBatchItems_invariants ["11111111"] wFood wRetail wRes rfl).1,
   (getBatchItems_invariants ["11111111"] wFood wRetail wRes rfl).2.1⟩

lemma filterMap_sublist_map {α β : Type} (l : List α) (f : α → Option β)
    (g : α → β) (hf : ∀ a b, f a = some b → b = g a) :
    List.Sublist (l.filterMap f) (l.map g) := by
  induction l with
  | nil => simp
  | cons a as ih =>
    cases hfa : f a with
    | none =>
      simp only [List.filterMap_cons, hfa, List.map_cons]
      exact List.Sublist.cons (g a) ih
    | some b =>
      have hb : b = g a := hf a b hfa
      subst hb
      simp only [List.filterMap_cons, hfa, List.map_cons]
      exact List.Sublist.cons₂ (g a) ih

/-- C8 (amended): the `items` sequence of `getBatchItems` does preserve the
input order of `codes` (`Promise.all` resolves positionally and `filter`
preserves relative order): the barcode sequence of `items` is an ordered
subsequence of the input, and equals the input exactly when every barcode
succeeds on at least one provider. -/
theorem getBatchItems_preserves_input_order (codes : List String)
    (food retail : Nat → String → Except String Obj) (res : BatchResponse)
    (h : getBatchItems codes food retail = .ok res) :
    List.Sublist (res.items.map (fun x => x.barcode)) codes ∧
    ((∀ i c, (exceptOk (food i c) || exceptOk (retail i c)) = true) →
      res.items.map (fun x => x.barcode) = codes) := by
  obtain ⟨hitems, -, -⟩ := getBatchItems_items_eq codes food retail res h
  have hbar : res.items.map (fun x => x.barcode) =
      (codes.enum.filter
        (fun ic => exceptOk (food ic.1 ic.2) ||
          exceptOk (retail ic.1 ic.2))).map Prod.snd := by
    rw [hitems]
    exact enumFrom_barcodes food retail 0 codes
  constructor
  · rw [hbar]
    have h2 := List.Sublist.map Prod.snd (List.filter_sublist (l := codes.enum)
      (p := fun ic => exceptOk (food ic.1 ic.2) || exceptOk (retail ic.1 ic.2)))
    rw [List.enum_map_snd] at h2
    exact h2
  · intro hall
    rw [hbar, List.filter_eq_self.mpr (fun a _ => hall a.1 a.2)]
    exact List.enum_map_snd codes

/-- Witness for C8 (amended): concrete ordered-subsequence instance. -/
theorem getBatchItems_preserves_input_order_witness :
    List.Sublist (wRes.items.map (fun x => x.barcode)) ["11111111"] :=
  (getBatchItems_preserves_input_order ["11111111"] wFood wRetail wRes rfl).1

/-- Counterexample to C8 as stated: on the concrete batch
`["11111111", "22222222"]` with every food call succeeding, the `items`
sequence comes back exactly in the input order — the order is determined
by the input, not by completion order, so callers may rely on it. -/
theorem getBatchItems_order_counterexample :
    getBatchItems ["11111111", "22222222"] wFood wRetail =
      .ok { items :=
              [{ barcode := "11111111",
                 foodData := some
                   (mkFoodData [("product_name", Val.str "X")]),
                 retailData := none,
                 sources := { openFoodFacts := true, upcItemDB := false } },
               { barcode := "22222222",
                 foodData := some
                   (mkFoodData [("product_name", Val.str "X")]),
                 retailData := none,
                 sources := { openFoodFacts := true, upcItemDB := false } }],
            total := 2, requested := 2 } := rfl

/-- C10: once past validation (non-empty code list), `getBatchItems` always
returns a 200 response, never a `NotFoundError`: in particular when every
code fails on both providers it returns `{ items: [], total: 0,
requested: n }`. -/
theorem getBatchItems_total_failure_ok (codes : List String)
    (food retail : Nat → String → Except String Obj) (h : ¬ codes = []) :
    (∃ res, getBatchItems codes food retail = .ok res) ∧
    ((∀ i c, exceptOk (food i c) = false) →
     (∀ i c, exceptOk (retail i c) = false) →
      getBatchItems codes food retail =
        .ok { items := [], total := 0, requested := codes.length }) := by
  have hlen : ¬ codes.length = 0 := by
    simpa [List.length_eq_zero] using h
  constructor
  · cases codes with
    | nil => exact absurd rfl h
    | cons c cs => exact ⟨_, rfl⟩
  · intro hf hr
    have hnil : (codes.enum.map
        (fun ic => batchItem ic.2 (food ic.1 ic.2)
          (retail ic.1 ic.2))).filterMap id = [] := by
      rw [List.filterMap_eq_nil_iff]
      intro a ha
      rw [List.mem_map] at ha
      obtain ⟨ic, hic, rfl⟩ := ha
      simp only [id]
      exact batchItem_none_of_fail (hf ic.1 ic.2) (hr ic.1 ic.2)
    unfold getBatchItems
    rw [if_neg hlen]
    simp only []
    rw [hnil]
    rfl

/-- Witness for C10: the concrete one-element batch with both providers
failing yields the empty 200 response. -/
theorem getBatchItems_total_failure_ok_witness :
    getBatchItems ["11111111"] wFoodFail wRetail =
      .ok { items := [], total := 0, requested := 1 } :=
  (getBatchItems_total_failure_ok ["11111111"] wFoodFail wRetail
    (by simp)).2 (fun _ _ => rfl) (fun _ _ => rfl)

lemma upcFold_keys (p : Obj) (fs : List String) :
    ∀ (acc : Obj) (k : String),
      k ∈ objKeys (fs.foldl (fun acc f =>
        match objGet p f with
        | some v => (f, v) :: acc
        | none => acc) acc) →
      k ∈ objKeys acc ∨ (k ∈ fs ∧ (objGet p k).isSome = true) := by
  induction fs with
  | nil =>
    intro acc k h
    exact .inl h
  | cons f rest ih =>
    intro acc k h
    rw [List.foldl_cons] at h
    cases hpf : objGet p f with
    | some v =>
      simp only [hpf] at h
      rcases ih ((f, v) :: acc) k h with hmem | hrest
      · simp only [objKeys, List.map_cons, List.mem_cons] at hmem
        rcases hmem with rfl | hmem
        · exact .inr ⟨List.mem_cons_self k rest, by rw [hpf]; rfl⟩
        · exact .inl hmem
      · exact .inr ⟨List.mem_cons_of_mem f hrest.1, hrest.2⟩
    | none =>
      simp only [hpf] at h
      rcases ih acc k h with hmem | hrest
      · exact .inl hmem
      · exact .inr ⟨List.mem_cons_of_mem f hrest.1, hrest.2⟩

/-- C4 (amended): with a non-empty explicit field list, the UPCItemDB
client's result keys lie in the requested field set plus the always-present
`barcode` key, and a requested field appears only when the upstream item
carries it (absent fields are omitted, never defaulted); the OpenFoodFacts
client, by contrast, does not filter at all: its successful result is the
whole upstream product with the `barcode` key appended. -/
theorem providerFieldFiltering (barcode : String) (fs : List String)
    (hfs : 0 < fs.length) (p : Obj) (rest : List Obj) (o : Obj)
    (hupc : UPCItemDBService.lookup barcode (some fs)
        (.respOk (some (p :: rest))) = .ok o)
    (k : String) (hk : k ∈ objKeys o) :
    (k = "barcode" ∨ (k ∈ fs ∧ (objGet p k).isSome = true)) ∧
    (∀ (status : Nat) (q o₂ : Obj), ¬ status = 0 →
      OpenFoodFactsService.getProductByBarcode barcode (some fs)
          (.respOk status (some q)) = .ok o₂ →
      o₂ = q ++ [("barcode", Val.str barcode)]) := by
  constructor
  · simp only [UPCItemDBService.lookup, if_pos hfs, Except.ok.injEq] at hupc
    subst hupc
    rcases upcFold_keys p fs [("barcode", Val.str barcode)] k hk with hmem | hrest
    · left
      simpa [objKeys] using hmem
    · exact .inr hrest
  · intro status q o₂ hstatus hoff
    simp only [OpenFoodFactsService.getProductByBarcode, if_neg hstatus,
      Except.ok.injEq] at hoff
    exact hoff.symm

/-- Counterexample to C4 as stated: requesting only `["brand"]` from the
UPCItemDB client returns an object that also carries the `barcode` key,
which is outside the requested field set. -/
theorem providerFieldFiltering_counterexample :
    UPCItemDBService.lookup "12345678" (some ["brand"])
        (.respOk (some [[("brand", Val.str "Acme")]])) =
      .ok [("brand", Val.str "Acme"), ("barcode", Val.str "12345678")] ∧
    "barcode" ∈ objKeys [("brand", Val.str "Acme"),
      ("barcode", Val.str "12345678")] ∧
    ¬ "barcode" ∈ ["brand"] := by
  refine ⟨rfl, ?_, by decide⟩
  simp [objKeys]

/-- Witness for C4 (amended): the key `"brand"` of the concrete filtered
result is a requested field carried by the upstream item. -/
theorem providerFieldFiltering_witness :
    "brand" = "barcode" ∨ ("brand" ∈ ["brand"] ∧
      (objGet [("brand", Val.str "Acme")] "brand").isSome = true) :=
  (providerFieldFiltering "12345678" ["brand"] (by decide)
    [("brand", Val.str "Acme")] []
    [("brand", Val.str "Acme"), ("barcode", Val.str "12345678")]
    rfl "brand" (by simp [objKeys])).1

/-- C7 (amended): in `getItemByCode` the two provider calls are made
sequentially, each in its own try/catch: the retail call is always issued —
also when the food call failed — but only after the food call has settled,
and the trace result agrees with `getItemByCode`. -/
theorem getItemByCode_sequential_calls (code : String) (hcode : ¬ code = "")
    (food retail : Except String Obj) :
    CallEv.issueRetail ∈ (getItemByCodeTrace code food retail).1 ∧
    precedes (getItemByCodeTrace code food retail).1
      CallEv.settleFood CallEv.issueRetail = true ∧
    (getItemByCodeTrace code food retail).2 =
      getItemByCode code food retail := by
  unfold getItemByCodeTrace
  rw [if_neg hcode]
  refine ⟨by simp, ?_, rfl⟩
  show precedes [CallEv.issueFood, CallEv.settleFood, CallEv.issueRetail,
    CallEv.settleRetail] CallEv.settleFood CallEv.issueRetail = true
  decide

/-- Witness for C7 (amended): concrete trace where the food call fails and
the retail call is still issued, after the food call settles. -/
theorem getItemByCode_sequential_calls_witness :
    precedes (getItemByCodeTrace "12345678" (.error "down") (.ok [])).1
      CallEv.settleFood CallEv.issueRetail = true :=
  (getItemByCode_sequential_calls "12345678" (by decide)
    (.error "down") (.ok [])).2.1

/-- Counterexample to C7 as stated: at the concrete barcode `"12345678"`
with a slow failing food call, the retail call is not issued before the food
call settles — a delay of the food call delays the issuing of the retail
call, so the two calls are not launched concurrently. -/
theorem getItemByCode_concurrent_launch_counterexample :
    precedes (getItemByCodeTrace "12345678" (.error "timed out")
        (.ok [("brand", Val.str "b")])).1
      CallEv.issueRetail CallEv.settleFood = false := by
  decide

/-- C9 (code bug): with both providers reachable and the OpenFoodFacts
upstream honouring the requested field list
(`product_name_fr`, not `product_name`, is requested), the combined result
for `"3017620422003"` has both source flags true but
`foodData.product_name` is absent, because the controller requests
`product_name_fr` and then reads `product_name`. -/
theorem getItemByCode_product_name_missing :
    getItemByCodeFromUpstreams "3017620422003"
        (.respOk 1 (some [("product_name_fr", Val.str "Nutella"),
                          ("_keywords", Val.str "nutella"),
                          ("quantity", Val.str "400 g")]))
        (.respOk (some [[("description", Val.str "Nutella Hazelnut Spread"),
                         ("brand", Val.str "Ferrero")]])) =
      .ok { barcode := "3017620422003",
            foodData := some
              { keywords := some (Val.str "nutella"),
                product_name := none,
                product_quantity := none,
                product_quantity_unit := none,
                quantity := some (Val.str "400 g"),
                serving_quantity := none,
                serving_quantity_unit := none },
            retailData := some
              { description := some (Val.str "Nutella Hazelnut Spread"),
                brand := some (Val.str "Ferrero"),
                images := none },
            sources := { openFoodFacts := true, upcItemDB := true } } := rfl

end CncWebapp
